import Mathlib

/-!
Verification of the status-watcher program (`src/app.py`).

The program is a single-file watcher that
* polls the presence of a fixed list of monitored bot ids, diffs each raw
  presence string against an in-memory map `last_status`, and sends a
  notification only when the offline/online class of the status changes
  (`check_status_loop` + `handle_status_change`);
* answers rate-limited text commands (`on_message`), in particular the
  `/watch` command guarded by a 10-second per-user cooldown;
* provisions a personal text channel per eligible member
  (`ensure_member_room` + `make_channel_name`);
* periodically moves inactive channels to an archive category
  (`archive_old_rooms_loop`).

Each Python function used by the claims is embedded below as a pure Lean
function; mutable state (`last_status`, `watch_cooldown`, the
`existing_names` set) is threaded explicitly.  Timestamps (Python floats
from `time.time()` / datetime arithmetic) are modelled as rationals.
-/

namespace WatchBot

/-- `offline_states = {"offline", "invisible", "not_in_guild"}` from
`check_status_loop` (the same literal set is used in `on_message` and
`handle_status_change`). -/
def offlineStates : List String := ["offline", "invisible", "not_in_guild"]

/-- Whether a raw status string falls in the offline (unreachable) class. -/
def isOffline (s : String) : Bool := offlineStates.contains s

/-- Classification of a notified status change. -/
inductive Transition where
  | becameReachable
  | becameUnreachable
deriving DecidableEq, Repr

/-- A notification message actually deliverable to the status channel:
which kind of crossing it reports and its mention-bearing text. -/
structure Notification where
  transition : Transition
  content : String
deriving DecidableEq, Repr

/-- `f"<@{id}>"`. -/
def mention (i : Nat) : String := "<@" ++ toString i ++ ">"

/-- What a class-boundary crossing in `handle_status_change` produces:
either a deliverable notification, or the fatal defect of the
went-OFFLINE branch — its embed title on line 552,
`title=f"🔴 Bot Offline \x7bbot_mention"`, has an unclosed replacement
field, a parse-time SyntaxError, so that branch can never construct or
deliver its message (indeed the module cannot even be imported). -/
inductive DispatchResult where
  | sent (n : Notification)
  | syntaxError
deriving DecidableEq, Repr

/-- Embedding of `StatusWatcher.handle_status_change`.  Returns `none`
for ignored minor (same-class) changes.  The went-ONLINE branch sends
its fixed embed description, which names only the bot and does not
depend on `adminIds` (the `ADMIN_IDS` configuration).  The went-OFFLINE
branch is embedded as the unexecutable `syntaxError` outcome: the
source's line 552 is an unclosed f-string replacement field, so the
branch (and with it the whole module) cannot run, and the admin-pinging
content assembled on lines 538-548 from the `ADMIN_IDS` argument is
never delivered (leaving that argument unused by any executable
branch). -/
def handle_status_change (botId : Nat) (oldStatus newStatus : String)
    (_adminIds : List Nat) : Option DispatchResult :=
  let isNowOffline := isOffline newStatus
  let wasOffline := isOffline oldStatus
  if !isNowOffline && wasOffline then
    -- "Went ONLINE" branch: embed description, no admin mentions
    some (.sent { transition := .becameReachable
                  content := "🟢 " ++ mention botId ++ " is now **Online**." })
  else if isNowOffline && !wasOffline then
    -- "Went OFFLINE" branch: dead code behind the line-552 SyntaxError
    some .syntaxError
  else
    none

/-- Python dict assignment `m[k] = v` on an association-list model of the
dict. -/
def setKey {β : Type} (m : List (Nat × β)) (k : Nat) (v : β) :
    List (Nat × β) :=
  (k, v) :: m.filter (fun p => p.1 ≠ k)

/-- One monitored bot's step of `check_status_loop` (the body of the
`for bot_id in MONITORED_BOT_IDS` loop, after `current_status` has been
computed from the guild): first sighting stores the status silently;
an identical raw status is skipped; otherwise the map is updated and
`handle_status_change` decides what, if anything, is dispatched. -/
def observe (lastStatus : List (Nat × String)) (botId : Nat)
    (currentStatus : String) (adminIds : List Nat) :
    List (Nat × String) × Option DispatchResult :=
  match lastStatus.lookup botId with
  | none => (setKey lastStatus botId currentStatus, none)
  | some previousStatus =>
    if currentStatus = previousStatus then
      (lastStatus, none)
    else
      (setKey lastStatus botId currentStatus,
       handle_status_change botId previousStatus currentStatus adminIds)

/-- C3: for every entity, the first observation (no record in
`last_status`) stores the observed raw status and produces no
notification, whatever the raw status is. -/
theorem first_observation_no_transition (m : List (Nat × String))
    (botId : Nat) (raw : String) (adminIds : List Nat)
    (h : m.lookup botId = none) :
    observe m botId raw adminIds = (setKey m botId raw, none) ∧
      (setKey m botId raw).lookup botId = some raw := by
  constructor
  · unfold observe
    rw [h]
  · simp [setKey, List.lookup]

/-- Witness for `first_observation_no_transition` on a concrete input. -/
theorem first_observation_no_transition_witness :
    observe [] 7 "idle" [] = (setKey [] 7 "idle", none) ∧
      (setKey ([] : List (Nat × String)) 7 "idle").lookup 7 = some "idle" :=
  first_observation_no_transition [] 7 "idle" [] (by decide)

/-- Core dedup fact shared by the presence-tracking claims: with a stored
status of the same offline/online class, `observe` sends nothing. -/
theorem observe_same_class_none (m : List (Nat × String)) (botId : Nat)
    (prev cur : String) (adminIds : List Nat)
    (h : m.lookup botId = some prev)
    (hclass : isOffline cur = isOffline prev) :
    (observe m botId cur adminIds).2 = none := by
  unfold observe
  rw [h]
  by_cases hc : cur = prev
  · subst hc
    simp
  · simp only [if_neg hc]
    unfold handle_status_change
    cases ho : isOffline cur <;> simp_all

/-- C4: for an entity with a stored status, an observation whose
offline/online class equals the stored one produces no notification
(sub-state changes inside a class are collapsed), and a deliverable
notification arises only from a class-boundary crossing.  The full
crossing behavior is pinned: an unreachable→reachable crossing sends the
online notification, while a reachable→unreachable crossing reaches the
went-OFFLINE branch, which is the unexecutable line-552 SyntaxError and
delivers nothing. -/
theorem same_class_no_transition (m : List (Nat × String)) (botId : Nat)
    (prev cur : String) (adminIds : List Nat)
    (h : m.lookup botId = some prev) :
    (isOffline cur = isOffline prev →
      (observe m botId cur adminIds).2 = none) ∧
    (∀ n, (observe m botId cur adminIds).2 = some (.sent n) →
      isOffline cur ≠ isOffline prev) ∧
    (isOffline cur = false → isOffline prev = true →
      (observe m botId cur adminIds).2 =
        some (.sent ⟨.becameReachable,
          "🟢 " ++ mention botId ++ " is now **Online**."⟩)) ∧
    (isOffline cur = true → isOffline prev = false →
      (observe m botId cur adminIds).2 = some .syntaxError) := by
  refine ⟨observe_same_class_none m botId prev cur adminIds h, ?_, ?_, ?_⟩
  · intro n hsent hclass
    rw [observe_same_class_none m botId prev cur adminIds h hclass]
      at hsent
    exact Option.noConfusion hsent
  · intro hcur hprev
    unfold observe
    rw [h]
    have hc : cur ≠ prev := by
      intro he
      rw [he, hprev] at hcur
      exact Bool.noConfusion hcur
    simp only [if_neg hc]
    unfold handle_status_change
    simp [hcur, hprev]
  · intro hcur hprev
    unfold observe
    rw [h]
    have hc : cur ≠ prev := by
      intro he
      rw [he, hprev] at hcur
      exact Bool.noConfusion hcur
    simp only [if_neg hc]
    unfold handle_status_change
    simp [hcur, hprev]

/-- Witness for `same_class_no_transition` on concrete inputs: a
same-class sub-state change is silent, and a reachable→unreachable
crossing hits the dead offline branch. -/
theorem same_class_no_transition_witness :
    (observe [(1, "idle")] 1 "online" []).2 = none ∧
    (observe [(2, "online")] 2 "offline" [9]).2 = some .syntaxError :=
  ⟨(same_class_no_transition [(1, "idle")] 1 "idle" "online" []
      (by decide)).1 (by decide),
   (same_class_no_transition [(2, "online")] 2 "online" "offline" [9]
      (by decide)).2.2.2 (by decide) (by decide)⟩

/-- C7: evaluation at the failing input.  A reachable→unreachable
crossing with a configured admin list (here `ADMIN_IDS = [9]`) reaches
the went-OFFLINE branch, whose embed title on line 552 is an unclosed
f-string replacement field — a parse-time SyntaxError — so the claimed
payload carrying the administrator-escalation recipient list is never
constructed or delivered; the unreachable→reachable crossing, by
contrast, would send the fixed online message naming only the monitored
bot.  The code contradicts the claim (and the spec's dispatcher
contract), which is the evident intent: the claim is right, the code is
broken. -/
theorem offline_notification_syntax_error :
    handle_status_change 5 "online" "offline" [9] = some .syntaxError ∧
    handle_status_change 5 "offline" "online" [9] =
      some (.sent ⟨.becameReachable,
        "🟢 " ++ mention 5 ++ " is now **Online**."⟩) := by
  constructor <;> rfl

/-- Python `int(q)` on a float value: truncation toward zero. -/
def pyTrunc (q : ℚ) : ℤ := if 0 ≤ q then ⌊q⌋ else ⌈q⌉

/-- Outcome of the `/watch` cooldown gate in `on_message`. -/
inductive WatchResponse where
  /-- The "Please wait N more second(s)" rejection, with the reported N. -/
  | cooldownActive (remaining : ℤ)
  /-- The gate passed; the handler goes on to send the status embed. -/
  | proceeded
deriving DecidableEq, Repr

/-- Embedding of the `/watch` cooldown gate in `StatusWatcher.on_message`:
`last = self.watch_cooldown.get(author.id, 0)`; if `now - last < 10` the
command is rejected with `int(10 - (now - last))` remaining seconds and
the cooldown map is left untouched; otherwise the author's entry is set
to `now` and the handler proceeds. -/
def watch_cooldown_check (cooldowns : List (Nat × ℚ)) (authorId : Nat)
    (now : ℚ) : List (Nat × ℚ) × WatchResponse :=
  let last := (cooldowns.lookup authorId).getD 0
  if now - last < 10 then
    (cooldowns, .cooldownActive (pyTrunc (10 - (now - last))))
  else
    (setKey cooldowns authorId now, .proceeded)

/-- `pyTrunc` is monotone on nonnegative arguments (where it is `⌊·⌋`). -/
theorem pyTrunc_mono_of_nonneg {a b : ℚ} (h0 : 0 ≤ a) (hab : a ≤ b) :
    pyTrunc a ≤ pyTrunc b := by
  unfold pyTrunc
  rw [if_pos h0, if_pos (le_trans h0 hab)]
  exact Int.floor_le_floor hab

/-- C8 counterexample: two successive rejected `/watch` checks by user 1
(cooldown started at time 0) at the strictly increasing times 1/5 s and
1/2 s both report 9 remaining seconds — the reported remaining time does
not strictly decrease (the first rejection leaves the cooldown map
unchanged, so the second check runs on the same state). -/
theorem query_status_cooldown_counterexample :
    (0 : ℚ) < 1 / 5 ∧ (1 : ℚ) / 5 < 1 / 2 ∧
    watch_cooldown_check [(1, 0)] 1 (1 / 5) =
      ([(1, 0)], .cooldownActive 9) ∧
    watch_cooldown_check [(1, 0)] 1 (1 / 2) =
      ([(1, 0)], .cooldownActive 9) := by
  refine ⟨by norm_num, by norm_num, ?_, ?_⟩ <;>
    · simp only [watch_cooldown_check, List.lookup, pyTrunc]
      norm_num

/-- C8 amended: a `/watch` command issued before the 10-second per-user
cooldown expires is rejected with the truncated remaining wait time, the
rejection does not consume the cooldown, and across successive rejected
checks the reported remaining time is non-increasing (it is reported in
whole seconds, so two checks inside the same second can report the same
value). -/
theorem query_status_cooldown_monotone (cooldowns : List (Nat × ℚ))
    (authorId : Nat) (now1 now2 : ℚ) (r1 r2 : ℤ)
    (h12 : now1 ≤ now2)
    (h1 : (watch_cooldown_check cooldowns authorId now1).2 =
      .cooldownActive r1)
    (h2 : (watch_cooldown_check cooldowns authorId now2).2 =
      .cooldownActive r2) :
    now1 - ((cooldowns.lookup authorId).getD 0) < 10 ∧
    r1 = pyTrunc (10 - (now1 - (cooldowns.lookup authorId).getD 0)) ∧
    (watch_cooldown_check cooldowns authorId now1).1 = cooldowns ∧
    r2 ≤ r1 := by
  unfold watch_cooldown_check at h1 h2 ⊢
  dsimp only at h1 h2 ⊢
  split at h1
  case isFalse => simp at h1
  case isTrue hlt1 =>
    split at h2
    case isFalse => simp at h2
    case isTrue hlt2 =>
      simp only [WatchResponse.cooldownActive.injEq] at h1 h2
      refine ⟨hlt1, h1.symm, by rw [if_pos hlt1], ?_⟩
      rw [← h1, ← h2]
      exact pyTrunc_mono_of_nonneg (by linarith) (by linarith)

/-- Witness for `query_status_cooldown_monotone` on concrete inputs. -/
theorem query_status_cooldown_monotone_witness :
    (1 : ℚ) / 5 - (([((1 : Nat), (0 : ℚ))].lookup 1).getD 0) < 10 ∧
    (9 : ℤ) = pyTrunc (10 - ((1 : ℚ) / 5 -
      ([((1 : Nat), (0 : ℚ))].lookup 1).getD 0)) ∧
    (watch_cooldown_check [(1, 0)] 1 (1 / 5)).1 = [(1, 0)] ∧
    (9 : ℤ) ≤ 9 :=
  query_status_cooldown_monotone [(1, 0)] 1 (1 / 5) (1 / 2) 9 9
    (by norm_num)
    (by simp only [watch_cooldown_check, List.lookup, pyTrunc]; norm_num)
    (by simp only [watch_cooldown_check, List.lookup, pyTrunc]; norm_num)

/-- The uppercase ASCII letters. -/
def uppercaseChars : List Char :=
  ['A', 'B', 'C', 'D', 'E', 'F', 'G', 'H', 'I', 'J', 'K', 'L', 'M',
   'N', 'O', 'P', 'Q', 'R', 'S', 'T', 'U', 'V', 'W', 'X', 'Y', 'Z']

/-- ASCII model of Python `str.lower` applied per character: uppercase
ASCII letters map to their lowercase counterparts, everything else is
unchanged. -/
def pyToLower (c : Char) : Char :=
  match c with
  | 'A' => 'a' | 'B' => 'b' | 'C' => 'c' | 'D' => 'd' | 'E' => 'e'
  | 'F' => 'f' | 'G' => 'g' | 'H' => 'h' | 'I' => 'i' | 'J' => 'j'
  | 'K' => 'k' | 'L' => 'l' | 'M' => 'm' | 'N' => 'n' | 'O' => 'o'
  | 'P' => 'p' | 'Q' => 'q' | 'R' => 'r' | 'S' => 's' | 'T' => 't'
  | 'U' => 'u' | 'V' => 'v' | 'W' => 'w' | 'X' => 'x' | 'Y' => 'y'
  | 'Z' => 'z'
  | c => c

/-- ASCII model of the whitespace set stripped by Python `str.strip`. -/
def isPySpace (c : Char) : Bool :=
  c = ' ' || c = '\t' || c = '\n' || c = '\r' || c = '\x0b' || c = '\x0c'

/-- Python `str.strip()` on a character list. -/
def pyStrip (s : List Char) : List Char :=
  ((s.dropWhile isPySpace).reverse.dropWhile isPySpace).reverse

/-- The per-character action of `base.replace(" ", "-")`. -/
def spaceToHyphen (c : Char) : Char := if c = ' ' then '-' else c

/-- One decimal digit character, for the digits of `f"user-{member.id}"`
(the argument is always `< 10` where this is used). -/
def digitChar : Nat → Char
  | 0 => '0' | 1 => '1' | 2 => '2' | 3 => '3' | 4 => '4'
  | 5 => '5' | 6 => '6' | 7 => '7' | 8 => '8' | 9 => '9'
  | _ => '0'

/-- Fuel-driven helper for `natDigits`; the fuel only forces structural
termination and is always sufficient at the call site. -/
def natDigitsAux : Nat → Nat → List Char
  | _, 0 => []
  | n, fuel + 1 =>
    if n < 10 then [digitChar n]
    else natDigitsAux (n / 10) fuel ++ [digitChar (n % 10)]

/-- Decimal digit characters of `n`, most significant first. -/
def natDigits (n : Nat) : List Char := natDigitsAux n (n + 1)

/-- A guild member, with the fields `ensure_member_room` and
`make_channel_name` read: `member.id`, `member.display_name`,
`member.bot`, `member.guild_permissions.administrator`, and the names of
`member.roles`. -/
structure Member where
  id : Nat
  displayName : List Char
  isBot : Bool
  isAdmin : Bool
  roleNames : List String
deriving DecidableEq, Repr

/-- Embedding of `StatusWatcher.make_channel_name`: strip the display
name, fall back to `f"user-{member.id}"` when empty, replace spaces with
hyphens, lowercase, and truncate to 90 characters. -/
def make_channel_name (member : Member) : List Char :=
  let base := pyStrip member.displayName
  let base := if base = [] then "user-".data ++ natDigits member.id else base
  let name := (base.map spaceToHyphen).map pyToLower
  name.take 90

/-- `IGNORE_ROLE_NAMES = {"L", "bot"}`. -/
def ignoreRoleNames : List String := ["L", "bot"]

/-- Result of one `ensure_member_room` call (`True` = a room was
created, `False` = skipped for any reason, including a failed platform
call). -/
inductive EnsureResult where
  | created
  | skipped
deriving DecidableEq, Repr

/-- Embedding of `StatusWatcher.ensure_member_room` with an explicit
`existing_names` snapshot (the code mutates the passed-in set, modelled
here by returning the updated snapshot).  `createOk` models whether the
platform `create_text_channel` call succeeds; on failure the function
returns `False` without touching the snapshot. -/
def ensure_member_room (member : Member)
    (existingNames : List (List Char)) (createOk : Bool) :
    EnsureResult × List (List Char) :=
  if member.isBot then (.skipped, existingNames)
  else if member.isAdmin then (.skipped, existingNames)
  else if member.roleNames.any (fun r => ignoreRoleNames.contains r) then
    (.skipped, existingNames)
  else
    let channelName := make_channel_name member
    if existingNames.contains channelName then (.skipped, existingNames)
    else if createOk then (.created, channelName :: existingNames)
    else (.skipped, existingNames)

theorem pyToLower_not_mem_fix (c : Char) (h : c ∉ uppercaseChars) :
    pyToLower c = c := by
  unfold pyToLower
  split <;> simp_all [uppercaseChars]

theorem pyToLower_idem (c : Char) :
    pyToLower (pyToLower c) = pyToLower c := by
  by_cases h : c ∈ uppercaseChars
  · fin_cases h <;> decide
  · rw [pyToLower_not_mem_fix c h]
    exact pyToLower_not_mem_fix c h

theorem pyToLower_ne_space (c : Char) (h : c ≠ ' ') :
    pyToLower c ≠ ' ' := by
  by_cases hm : c ∈ uppercaseChars
  · fin_cases hm <;> decide
  · rw [pyToLower_not_mem_fix c hm]
    exact h

theorem spaceToHyphen_ne_space (c : Char) : spaceToHyphen c ≠ ' ' := by
  unfold spaceToHyphen
  split
  · decide
  · assumption

theorem spaceToHyphen_fix (c : Char) (h : c ≠ ' ') :
    spaceToHyphen c = c := if_neg h

theorem digitChar_fix (n : Nat) :
    pyToLower (digitChar n) = digitChar n ∧
    spaceToHyphen (digitChar n) = digitChar n ∧
    digitChar n ∉ uppercaseChars := by
  unfold digitChar
  split <;> decide

theorem natDigits_ne_nil (n : Nat) : natDigits n ≠ [] := by
  unfold natDigits natDigitsAux
  split <;> simp

theorem natDigitsAux_all_digits (fuel : Nat) :
    ∀ n, ∀ c ∈ natDigitsAux n fuel, ∃ m, c = digitChar m := by
  induction fuel with
  | zero =>
    intro n c hc
    simp [natDigitsAux] at hc
  | succ fuel ih =>
    intro n c hc
    unfold natDigitsAux at hc
    split at hc
    · simp at hc
      exact ⟨n, hc⟩
    · rcases List.mem_append.1 hc with hm | hm
      · exact ih (n / 10) c hm
      · simp at hm
        exact ⟨n % 10, hm⟩

theorem natDigits_all_digits (n : Nat) :
    ∀ c ∈ natDigits n, ∃ m, c = digitChar m :=
  natDigitsAux_all_digits (n + 1) n

/-- Pointwise-fixed maps are the identity on a list. -/
theorem map_fix {f : Char → Char} {l : List Char}
    (h : ∀ c ∈ l, f c = c) : l.map f = l := by
  have := List.map_congr_left (g := id) h
  simpa using this

theorem map_pyToLower_idem (l : List Char) :
    (l.map pyToLower).map pyToLower = l.map pyToLower := by
  rw [List.map_map]
  exact List.map_congr_left (fun a _ => pyToLower_idem a)

/-- Shape facts about the hyphenate-then-lowercase-then-truncate pipeline
of `make_channel_name`, for any non-empty base string. -/
theorem processed_take_spec (base : List Char) (hbne : base ≠ []) :
    ((base.map spaceToHyphen).map pyToLower).take 90 ≠ [] ∧
    (((base.map spaceToHyphen).map pyToLower).take 90).length ≤ 90 ∧
    (((base.map spaceToHyphen).map pyToLower).take 90).map pyToLower
      = ((base.map spaceToHyphen).map pyToLower).take 90 ∧
    (∀ c ∈ ((base.map spaceToHyphen).map pyToLower).take 90, c ≠ ' ') := by
  refine ⟨?_, ?_, ?_, ?_⟩
  · simp [List.take_eq_nil_iff, hbne]
  · simp [List.length_take]
  · rw [List.map_take, map_pyToLower_idem]
  · intro c hc
    have hc' := List.take_subset _ _ hc
    rcases List.mem_map.1 hc' with ⟨d, hd, rfl⟩
    rcases List.mem_map.1 hd with ⟨e, _, rfl⟩
    exact pyToLower_ne_space _ (spaceToHyphen_ne_space e)

/-- C10: the derived channel name is non-empty, at most 90 characters
long, lowercase (a fixed point of per-character lowering) and space-free;
a display name that strips to nothing falls back to `user-<id>` (verbatim
whenever the id has at most 85 digits, so the 90-character cut keeps the
fallback whole). -/
theorem make_channel_name_spec (member : Member) :
    make_channel_name member ≠ [] ∧
    (make_channel_name member).length ≤ 90 ∧
    (make_channel_name member).map pyToLower = make_channel_name member ∧
    (∀ c ∈ make_channel_name member, c ≠ ' ') ∧
    (pyStrip member.displayName = [] →
      (natDigits member.id).length ≤ 85 →
      make_channel_name member = "user-".data ++ natDigits member.id) := by
  have hb : (if pyStrip member.displayName = [] then
      "user-".data ++ natDigits member.id
    else pyStrip member.displayName) ≠ [] := by
    split
    · refine fun h => natDigits_ne_nil member.id ?_
      exact (List.append_eq_nil.mp h).2
    · assumption
  obtain ⟨h1, h2, h3, h4⟩ := processed_take_spec _ hb
  unfold make_channel_name
  dsimp only
  refine ⟨h1, h2, h3, h4, ?_⟩
  intro hempty hlen
  rw [if_pos hempty] at hb ⊢
  have hdigitsS : (natDigits member.id).map spaceToHyphen
      = natDigits member.id :=
    map_fix (fun c hc => by
      obtain ⟨m, rfl⟩ := natDigits_all_digits _ c hc
      exact (digitChar_fix m).2.1)
  have hdigitsL : (natDigits member.id).map pyToLower
      = natDigits member.id :=
    map_fix (fun c hc => by
      obtain ⟨m, rfl⟩ := natDigits_all_digits _ c hc
      exact (digitChar_fix m).1)
  have hs : ("user-".data ++ natDigits member.id).map spaceToHyphen
      = "user-".data ++ natDigits member.id := by
    rw [List.map_append, hdigitsS]
    congr 1
  have hp : ("user-".data ++ natDigits member.id).map pyToLower
      = "user-".data ++ natDigits member.id := by
    rw [List.map_append, hdigitsL]
    congr 1
  rw [hs, hp]
  refine List.take_of_length_le ?_
  rw [List.length_append]
  have h5 : ("user-".data).length = 5 := by decide
  omega

/-- Witness for `make_channel_name_spec` on a concrete member whose
display name is a single space. -/
theorem make_channel_name_spec_witness :
    make_channel_name ⟨42, [' '], false, false, []⟩ ≠ [] ∧
    make_channel_name ⟨42, [' '], false, false, []⟩
      = "user-".data ++ natDigits 42 :=
  ⟨(make_channel_name_spec ⟨42, [' '], false, false, []⟩).1,
   (make_channel_name_spec ⟨42, [' '], false, false, []⟩).2.2.2.2
     (by decide) (by decide)⟩

/-- Inversion: a `created` result implies every filter passed, the name
was fresh, the platform call succeeded, and the snapshot gained the new
name. -/
theorem ensure_created_inv (member : Member) (names : List (List Char))
    (ok : Bool) (h : (ensure_member_room member names ok).1 = .created) :
    member.isBot = false ∧ member.isAdmin = false ∧
    member.roleNames.any (fun r => ignoreRoleNames.contains r) = false ∧
    names.contains (make_channel_name member) = false ∧ ok = true ∧
    ensure_member_room member names ok
      = (.created, make_channel_name member :: names) := by
  unfold ensure_member_room at h ⊢
  dsimp only at h ⊢
  split at h
  case isTrue => simp at h
  case isFalse hbot =>
    split at h
    case isTrue => simp at h
    case isFalse hadmin =>
      split at h
      case isTrue => simp at h
      case isFalse hroles =>
        split at h
        case isTrue => simp at h
        case isFalse hcontains =>
          split at h
          case isFalse => simp at h
          case isTrue hok =>
            simp only [Bool.not_eq_true] at hbot hadmin hroles hcontains
            refine ⟨hbot, hadmin, hroles, hcontains, hok, ?_⟩
            rw [if_neg (by rw [hbot]; exact Bool.false_ne_true),
              if_neg (by rw [hadmin]; exact Bool.false_ne_true),
              if_neg (by rw [hroles]; exact Bool.false_ne_true),
              if_neg (by rw [hcontains]; exact Bool.false_ne_true),
              if_pos hok]

/-- An eligible member whose derived name is already in the snapshot is
skipped and the snapshot is left unchanged. -/
theorem ensure_skips_existing (member : Member) (names : List (List Char))
    (ok : Bool) (hb : member.isBot = false) (ha : member.isAdmin = false)
    (hr : member.roleNames.any (fun r => ignoreRoleNames.contains r)
      = false)
    (hc : names.contains (make_channel_name member) = true) :
    ensure_member_room member names ok = (.skipped, names) := by
  unfold ensure_member_room
  dsimp only
  rw [if_neg (by rw [hb]; exact Bool.false_ne_true),
    if_neg (by rw [ha]; exact Bool.false_ne_true),
    if_neg (by rw [hr]; exact Bool.false_ne_true),
    if_pos hc]

/-- C5: if a first `ensure_member_room` call creates a room, repeating
the call for the same member on the resulting snapshot returns skipped
and changes nothing (whether or not a second create would succeed), so
at most one room is created. -/
theorem ensure_member_room_idempotent (member : Member)
    (names : List (List Char)) (ok1 ok2 : Bool)
    (h : (ensure_member_room member names ok1).1 = .created) :
    ensure_member_room member (ensure_member_room member names ok1).2 ok2
      = (.skipped, (ensure_member_room member names ok1).2) := by
  obtain ⟨hb, ha, hr, _, _, hres⟩ := ensure_created_inv member names ok1 h
  rw [hres]
  exact ensure_skips_existing member _ ok2 hb ha hr
    (by simp [List.contains_cons])

/-- Witness for `ensure_member_room_idempotent` on a concrete member. -/
theorem ensure_member_room_idempotent_witness :
    ensure_member_room ⟨3, ['b', 'o', 'b'], false, false, []⟩
        (ensure_member_room ⟨3, ['b', 'o', 'b'], false, false, []⟩ [] true).2
        true
      = (.skipped,
         (ensure_member_room ⟨3, ['b', 'o', 'b'], false, false, []⟩ []
           true).2) :=
  ensure_member_room_idempotent ⟨3, ['b', 'o', 'b'], false, false, []⟩ []
    true true (by decide)

/-- C9: when two distinct eligible members derive the same channel name
and a provisioning pass creates the room for the first, the second is
skipped by the name-existence check on the shared snapshot and ends the
pass with no room of its own — the name is never created twice. -/
theorem slug_collision_single_room (a b : Member)
    (names : List (List Char)) (ok2 : Bool) (_hab : a ≠ b)
    (hslug : make_channel_name a = make_channel_name b)
    (hb1 : b.isBot = false) (hb2 : b.isAdmin = false)
    (hb3 : b.roleNames.any (fun r => ignoreRoleNames.contains r) = false)
    (h : (ensure_member_room a names true).1 = .created) :
    ensure_member_room b (ensure_member_room a names true).2 ok2
      = (.skipped, (ensure_member_room a names true).2) := by
  obtain ⟨_, _, _, _, _, hres⟩ := ensure_created_inv a names true h
  rw [hres]
  exact ensure_skips_existing b _ ok2 hb1 hb2 hb3
    (by rw [← hslug]; simp [List.contains_cons])

/-- Witness for `slug_collision_single_room`: two members with the same
display name and different ids. -/
theorem slug_collision_single_room_witness :
    ensure_member_room ⟨2, ['b', 'o', 'b'], false, false, []⟩
        (ensure_member_room ⟨1, ['b', 'o', 'b'], false, false, []⟩ []
          true).2 true
      = (.skipped,
         (ensure_member_room ⟨1, ['b', 'o', 'b'], false, false, []⟩ []
           true).2) :=
  slug_collision_single_room ⟨1, ['b', 'o', 'b'], false, false, []⟩
    ⟨2, ['b', 'o', 'b'], false, false, []⟩ [] true (by decide) (by decide)
    (by decide) (by decide) (by decide) (by decide)

/-- A text channel as seen by `archive_old_rooms_loop`: its creation
time and the timestamp of its most recent message, if any.  Timestamps
are in days, the unit of the `timedelta(days=ARCHIVE_INACTIVE_DAYS)`
threshold. -/
structure Room where
  createdAt : ℚ
  lastMessageAt : Option ℚ
deriving DecidableEq, Repr

/-- `last_ts` in `archive_old_rooms_loop`: the last message's timestamp,
falling back to `channel.created_at` when the channel has no messages. -/
def lastActivityAt (room : Room) : ℚ :=
  match room.lastMessageAt with
  | some t => t
  | none => room.createdAt

/-- The per-channel decision of `archive_old_rooms_loop`:
`threshold = now - timedelta(days=ARCHIVE_INACTIVE_DAYS)`; a channel
with `last_ts >= threshold` is skipped (`continue`), any other channel
is moved to the archive category. -/
def shouldArchive (now archiveInactiveDays : ℚ) (room : Room) : Bool :=
  let threshold := now - archiveInactiveDays
  if lastActivityAt room ≥ threshold then false else true

/-- The set of channels one run of `archive_old_rooms_loop` moves from
the active category to the archive category. -/
def archive_sweep (now archiveInactiveDays : ℚ) (rooms : List Room) :
    List Room :=
  rooms.filter (shouldArchive now archiveInactiveDays)

/-- C6 counterexample: a channel whose inactivity equals the threshold
exactly — created at day 0 with no messages, swept at day 10 with a
10-day threshold — satisfies `now - lastActivityAt ≥ thresholdDays`, yet
the code does not archive it: the code's boundary is strict. -/
theorem archive_threshold_counterexample :
    shouldArchive 10 10 ⟨0, none⟩ = false ∧
    10 - lastActivityAt ⟨0, none⟩ ≥ 10 := by
  constructor
  · norm_num [shouldArchive, lastActivityAt]
  · norm_num [lastActivityAt]

/-- C6 amended: one sweep archives a channel of the active category
exactly when `now - lastActivityAt > thresholdDays` holds strictly
(`lastActivityAt` falling back to creation time when no message exists);
a channel whose inactivity is equal to or below the threshold is left
untouched. -/
theorem archive_sweep_strict (now days : ℚ) (rooms : List Room)
    (room : Room) (hmem : room ∈ rooms) :
    room ∈ archive_sweep now days rooms ↔
      now - lastActivityAt room > days := by
  unfold archive_sweep
  rw [List.mem_filter]
  constructor
  · rintro ⟨-, hs⟩
    unfold shouldArchive at hs
    dsimp only at hs
    split at hs
    · exact absurd hs (by simp)
    case isFalse hge =>
      push_neg at hge
      linarith
  · intro hgt
    refine ⟨hmem, ?_⟩
    unfold shouldArchive
    dsimp only
    rw [if_neg (by intro hge; linarith)]

/-- Witness for `archive_sweep_strict` on a concrete channel list. -/
theorem archive_sweep_strict_witness :
    (⟨0, none⟩ : Room) ∈ archive_sweep 11 10 [⟨0, none⟩] ↔
      11 - lastActivityAt ⟨0, none⟩ > 10 :=
  archive_sweep_strict 11 10 [⟨0, none⟩] ⟨0, none⟩
    (List.mem_singleton.mpr rfl)

/-- Modelled from the spec: `src/app.py` keeps the monitored-entity
status map only in memory (`self.last_status`, reset to `{}` in
`StatusWatcher.__init__`); the StateStore component described by the
spec — `load`/`save` over a JSON state file mapping entity id to status
string — has no code under `src/`.  A state file is modelled as the
parsed association list when present and well-formed, and as `none` when
missing or corrupt. -/
def StateFile : Type := Option (List (Nat × String))

/-- Modelled from the spec: `load` returns the parsed map, or the empty
map on a missing or corrupt file rather than failing startup. -/
def loadState : StateFile → List (Nat × String)
  | none => []
  | some entries => entries

/-- Modelled from the spec: `save` replaces the state file with the
serialized map. -/
def saveState (m : List (Nat × String)) : StateFile := some m

/-- C1 (StateStore modelled from the spec): load/save round-trip
(`save (load f)` changes nothing `load` can observe), a missing or
corrupt file loads as the empty map, and a restart that resumes from a
loaded map re-fires no notification through the code's `observe` step
for an entity whose stored status has the same offline/online class as
the freshly observed one. -/
theorem state_store_round_trip :
    (∀ m : List (Nat × String), loadState (saveState m) = m) ∧
    (∀ f : StateFile, loadState (saveState (loadState f)) = loadState f) ∧
    loadState none = [] ∧
    (∀ (f : StateFile) (botId : Nat) (prev cur : String)
        (adminIds : List Nat),
      (loadState f).lookup botId = some prev →
      isOffline cur = isOffline prev →
      (observe (loadState f) botId cur adminIds).2 = none) := by
  refine ⟨fun _ => rfl, fun _ => rfl, rfl, ?_⟩
  intro f botId prev cur adminIds hlook hclass
  exact observe_same_class_none (loadState f) botId prev cur adminIds
    hlook hclass

/-- Witness for `state_store_round_trip` on a concrete state file. -/
theorem state_store_round_trip_witness :
    loadState (saveState [(1, "idle")]) = [(1, "idle")] ∧
    (observe (loadState (some [(1, "idle")])) 1 "online" []).2 = none :=
  ⟨state_store_round_trip.1 [(1, "idle")],
   state_store_round_trip.2.2.2 (some [(1, "idle")]) 1 "idle" "online" []
     (by decide) (by decide)⟩

/-- Modelled from the spec: no `request-restart` command exists under
`src/` (`on_message` handles only `/watch`, `/room` and `/bot-status`),
so the spec's §4.3 `request-restart` contract is modelled here.  The
state holds the global-cooldown expiry and the per-user cooldown
expiries; `relayOk` is the outcome of the external webhook relay call. -/
structure RestartState where
  globalUntil : ℚ
  userUntil : List (Nat × ℚ)
deriving DecidableEq, Repr

/-- Modelled from the spec: outcome of one `request-restart`
invocation. -/
inductive RestartResponse where
  | globalCooldown
  | userCooldown
  | relayFailed
  | restarted
deriving DecidableEq, Repr

/-- Modelled from the spec: `request-restart` is rejected for every
invoker while the global cooldown runs, then by the invoker's own
per-user cooldown; a successful relay call starts the global window and
consumes the invoker's per-user cooldown; a failed relay call consumes
neither. -/
def request_restart (st : RestartState) (invokerId : Nat) (now : ℚ)
    (globalDur userDur : ℚ) (relayOk : Bool) :
    RestartState × RestartResponse :=
  if now < st.globalUntil then (st, .globalCooldown)
  else if now < ((st.userUntil.lookup invokerId).getD 0) then
    (st, .userCooldown)
  else if relayOk then
    ({ globalUntil := now + globalDur,
       userUntil := setKey st.userUntil invokerId (now + userDur) },
     .restarted)
  else (st, .relayFailed)

/-- C2 (request-restart modelled from the spec): the global cooldown
rejects any invoker until expiry; past it, the invoker's per-user
cooldown rejects them; a successful relay call returns `restarted` and
starts the global window; a failed relay call leaves the whole state —
in particular the invoker's per-user cooldown — untouched, and the same
invoker retrying at the same instant with a working relay succeeds. -/
theorem request_restart_spec (st : RestartState) (invokerId : Nat)
    (now globalDur userDur : ℚ) :
    (now < st.globalUntil → ∀ relayOk,
      request_restart st invokerId now globalDur userDur relayOk
        = (st, .globalCooldown)) ∧
    (st.globalUntil ≤ now →
      now < (st.userUntil.lookup invokerId).getD 0 → ∀ relayOk,
      request_restart st invokerId now globalDur userDur relayOk
        = (st, .userCooldown)) ∧
    (st.globalUntil ≤ now →
      (st.userUntil.lookup invokerId).getD 0 ≤ now →
      request_restart st invokerId now globalDur userDur true
        = ({ globalUntil := now + globalDur,
             userUntil := setKey st.userUntil invokerId (now + userDur) },
           .restarted)) ∧
    (st.globalUntil ≤ now →
      (st.userUntil.lookup invokerId).getD 0 ≤ now →
      request_restart st invokerId now globalDur userDur false
          = (st, .relayFailed) ∧
        (request_restart st invokerId now globalDur userDur true).2
          = .restarted) := by
  refine ⟨?_, ?_, ?_, ?_⟩ <;> unfold request_restart
  · intro hg _
    rw [if_pos hg]
  · intro hg hu _
    rw [if_neg (not_lt.mpr hg), if_pos hu]
  · intro hg hu
    rw [if_neg (not_lt.mpr hg), if_neg (not_lt.mpr hu), if_pos rfl]
  · intro hg hu
    rw [if_neg (not_lt.mpr hg), if_neg (not_lt.mpr hu)]
    constructor
    · rw [if_neg Bool.false_ne_true]
    · rw [if_neg (not_lt.mpr hg), if_neg (not_lt.mpr hu), if_pos rfl]

/-- Witness for `request_restart_spec` on concrete inputs: idle state,
invocation at t = 5 with a 60 s global and 30 s per-user window. -/
theorem request_restart_spec_witness :
    request_restart ⟨0, []⟩ 1 5 60 30 true
      = (⟨5 + 60, setKey [] 1 (5 + 30)⟩, .restarted) ∧
    request_restart ⟨0, []⟩ 1 5 60 30 false = (⟨0, []⟩, .relayFailed) :=
  ⟨(request_restart_spec ⟨0, []⟩ 1 5 60 30).2.2.1
     (by norm_num) (by simp [List.lookup]),
   ((request_restart_spec ⟨0, []⟩ 1 5 60 30).2.2.2
     (by norm_num) (by simp [List.lookup])).1⟩

end WatchBot
